import Mathlib

/-!
Verification of the Google Ads upload handlers
(`google_ads_conversion_adjustments_upload.js`) and of the Cloud Functions
REST wrapper (`cloud_functions.js`) of the cloud-for-marketing repository.

The JavaScript classes are embedded shallowly: the injected collaborators
(`googleAds`, `StorageFile`, the REST transport) become records of Lean
functions, a thrown error or rejected promise becomes `Except.error`, and
every observable remote call is recorded in an explicit trace so that
ordering and call-count properties can be stated.
-/

/-- Aggregate result of a managed batch upload, as returned to the caller of
an API handler: `result` is the overall success flag, `errors` the collected
error messages. -/
structure BatchResult where
  result : Bool
  errors : List String
deriving DecidableEq

/-- JavaScript truthiness of an optional string field (`if (x)`):
an absent field and the empty string are falsy. -/
def jsTruthy : Option String → Bool
  | none => false
  | some s => s != ""

/-- Modelled from the spec: `getProperValue` of the shared `nodejs-common`
library is not under src/. Per the spec's data-model invariants
(`recordsPerRequest` a positive integer, `qps` a positive number) it returns
the supplied configuration value when that value is present and proper —
positive, or zero when the third argument (seen at the call sites in src/)
allows zero — and the given default otherwise. -/
def getProperValue (value : Option Int) (defaultValue : Int)
    (zeroAvailable : Bool) : Int :=
  match value with
  | none => defaultValue
  | some v => if 0 < v ∨ (zeroAvailable ∧ v = 0) then v else defaultValue

/-- Whether a supplied configuration value is a proper value in the sense of
`getProperValue`. -/
def isProperValue (value : Option Int) (zeroAvailable : Bool) : Bool :=
  match value with
  | none => false
  | some v => decide (0 < v ∨ (zeroAvailable ∧ v = 0))

/-- The operations collection of one request can contain at most 100,000
entries (source constant `RECORDS_PER_REQUEST`). -/
def RECORDS_PER_REQUEST : Int := 100000

/-- Source constant `NUMBER_OF_THREADS`: user data cannot be added to the
same job simultaneously. -/
def NUMBER_OF_THREADS : Int := 1

/-- Source constant `QUERIES_PER_SECOND`. -/
def QUERIES_PER_SECOND : Int := 1

/-- The `offlineUserDataJobConfig` object inside the upload configuration:
the job `type` string and the `list_id` that `sendDataInternal` may inject. -/
structure OfflineUserDataJobConfig where
  type : String
  list_id : Option String
deriving DecidableEq

/-- Configuration for a Google Ads offline user data job upload (source
typedef `GoogleAdsOfflineUserDataJobConfig`). `numberOfThreads` is not part
of the typedef but a message may still carry it; `getSpeedOptions` ignores
it. -/
structure GoogleAdsOfflineUserDataJobConfig where
  developerToken : String
  offlineUserDataJobConfig : OfflineUserDataJobConfig
  recordsPerRequest : Option Int
  qps : Option Int
  numberOfThreads : Option Int
deriving DecidableEq

/-- The three speed options consumed by the managed send pipeline. -/
structure SpeedOptions where
  recordsPerRequest : Int
  numberOfThreads : Int
  qps : Int
deriving DecidableEq

namespace GoogleAdsOfflineUserDataJobUpload

/-- Source method `GoogleAdsOfflineUserDataJobUpload.getSpeedOptions`: records per request
and qps come from the configuration through `getProperValue` (zero is not an
acceptable qps), while the number of threads is the constant `1`. -/
def getSpeedOptions (config : GoogleAdsOfflineUserDataJobConfig) : SpeedOptions :=
  { recordsPerRequest :=
      getProperValue config.recordsPerRequest RECORDS_PER_REQUEST true
    numberOfThreads := NUMBER_OF_THREADS
    qps := getProperValue config.qps QUERIES_PER_SECOND false }

end GoogleAdsOfflineUserDataJobUpload

/-- Modelled from the spec: `getResultFromError` (defined in an ancestor
class of the handlers, not under src/) converts a caught exception into a
failed `BatchResult` whose errors array contains a single descriptive
message. -/
def getResultFromError (error : String) : BatchResult :=
  { result := false, errors := [error] }

namespace GoogleAdsOfflineUserDataJobUpload

/-- The inbound Pub/Sub message as seen by the first `try` block of
`sendDataInternal`: `unparsable` is a message on which `JSON.parse` (or the
destructuring of its result) throws, `parsed` one that yields a value with
optional `bucket` and `file` fields. `raw` is the original message string in
both cases. -/
inductive Message where
  | unparsable (raw : String)
  | parsed (raw : String) (bucket : Option String) (file : Option String)
deriving DecidableEq

/-- The remote calls observable during one invocation of
`sendDataInternal`, in issue order: the storage fetch, the user-list
creation, the job creation, the managed send that adds the operations to the
job, and the run-job command. -/
inductive Ev where
  | fetch (bucket : Option String) (file : String)
  | createList (config : OfflineUserDataJobConfig)
  | createJob (config : OfflineUserDataJobConfig)
  | send (config : OfflineUserDataJobConfig) (job : String) (records : String)
      (messageId : String)
  | runJob (config : OfflineUserDataJobConfig) (job : String)
deriving DecidableEq

/-- The remote collaborators of `sendDataInternal`: the storage fetch
(`StorageFile.loadContent`) and the injected `googleAds` instance together
with the shared library's managed send. A thrown error / rejected promise is
`Except.error`; `managedSend` always resolves to a `BatchResult` (per-batch
failures are captured inside it, never thrown). -/
structure Env where
  loadContent : Option String → String → Except String String
  getOrCreateUserList : OfflineUserDataJobConfig → Except String String
  createOfflineUserDataJob : OfflineUserDataJobConfig → Except String String
  managedSend : OfflineUserDataJobConfig → String → String → String → BatchResult
  runOfflineUserDataJob : OfflineUserDataJobConfig → String → Except String Unit

/-- JavaScript's `String.prototype.startsWith(pre)`, embedded over the
character lists so that it evaluates inside the kernel. -/
def strStartsWith (s pre : String) : Bool :=
  List.isPrefixOf pre.data s.data

/-- Outcome of the first `try` block of `sendDataInternal`: either an early
`return` of a failed `BatchResult`, or the record data to upload. -/
inductive SourceOutcome where
  | earlyReturn (r : BatchResult)
  | records (data : String)
deriving DecidableEq

/-- The first `try`/`catch` of `sendDataInternal`: a parsed message with a
truthy `file` field is fetched from storage; a parsed message without one
returns a failed `BatchResult` immediately; a parse failure — and likewise a
fetch failure, since the `catch` covers the whole block — falls back to
using the raw message string as the record data. Also returns the trace of
remote calls. -/
def resolveSource (env : Env) (message : Message) : SourceOutcome × List Ev :=
  match message with
  | .unparsable raw => (.records raw, [])
  | .parsed raw bucket file =>
    if jsTruthy file then
      match env.loadContent bucket (file.getD "") with
      | .ok content => (.records content, [.fetch bucket (file.getD "")])
      | .error _ => (.records raw, [.fetch bucket (file.getD "")])
    else
      (.earlyReturn
        { result := false
          errors := ["Could find GCS infomation in message: " ++ raw] }, [])

/-- The part of the second `try` block of `sendDataInternal` that follows
the optional user-list step: create the offline user data job, run the
managed send against it, then issue the run-job command; an error thrown by
job creation or by the run-job command is converted by
`getResultFromError`. -/
def jobPhaseAfterList (env : Env) (records messageId : String)
    (config : OfflineUserDataJobConfig) : BatchResult × List Ev :=
  match env.createOfflineUserDataJob config with
  | .error e => (getResultFromError e, [.createJob config])
  | .ok jobResourceName =>
    let result := env.managedSend config jobResourceName records messageId
    match env.runOfflineUserDataJob config jobResourceName with
    | .error e =>
      (getResultFromError e,
        [.createJob config, .send config jobResourceName records messageId,
          .runJob config jobResourceName])
    | .ok _ =>
      (result,
        [.createJob config, .send config jobResourceName records messageId,
          .runJob config jobResourceName])

/-- The second `try`/`catch` of `sendDataInternal`: when the job type starts
with `CUSTOMER_MATCH`, the user list is created or fetched first and its
identifier injected into the config (`list_id`); then the job is created,
the managed send executed and the run-job command issued. -/
def jobPhase (env : Env) (records messageId : String)
    (config : OfflineUserDataJobConfig) : BatchResult × List Ev :=
  if strStartsWith config.type "CUSTOMER_MATCH" then
    match env.getOrCreateUserList config with
    | .error e => (getResultFromError e, [.createList config])
    | .ok listId =>
      let config2 := { config with list_id := some listId }
      let step := jobPhaseAfterList env records messageId config2
      (step.1, .createList config :: step.2)
  else
    jobPhaseAfterList env records messageId config

/-- Source method `GoogleAdsOfflineUserDataJobUpload.sendDataInternal`: resolve the record
source from the message, then run the job phase on the resolved records.
The returned trace is the concatenation of both phases' remote calls. The
function is total: every thrown error is handled by one of the two `catch`
blocks, so no exception reaches the caller. -/
def sendDataInternal (env : Env) (message : Message) (messageId : String)
    (config : GoogleAdsOfflineUserDataJobConfig) : BatchResult × List Ev :=
  match resolveSource env message with
  | (.earlyReturn r, tr) => (r, tr)
  | (.records records, tr) =>
    let step := jobPhase env records messageId config.offlineUserDataJobConfig
    (step.1, tr ++ step.2)

end GoogleAdsOfflineUserDataJobUpload

namespace GoogleAdsOfflineUserDataJobUpload

/-- Fixture: an environment whose storage fetch always throws while every
Google Ads call succeeds and the managed send reports success. -/
def envFetchFails : Env :=
  { loadContent := fun _ _ => .error "storage failure"
    getOrCreateUserList := fun _ => .ok "userList1"
    createOfflineUserDataJob := fun _ => .ok "customers/1/offlineUserDataJobs/2"
    managedSend := fun _ _ _ _ => { result := true, errors := [] }
    runOfflineUserDataJob := fun _ _ => .ok () }

/-- Fixture: an environment whose storage fetch always throws, for the
orchestrator-boundary claim. -/
def envSourceThrows : Env :=
  { loadContent := fun _ _ => .error "storage outage"
    getOrCreateUserList := fun _ => .ok "userList4"
    createOfflineUserDataJob := fun _ => .ok "customers/4/offlineUserDataJobs/4"
    managedSend := fun _ _ _ _ => { result := true, errors := [] }
    runOfflineUserDataJob := fun _ _ => .ok () }

/-- Fixture: an environment where all lifecycle calls succeed but the
managed send reports a failed batch. -/
def envJobOrder : Env :=
  { loadContent := fun _ _ => .ok "line1\nline2"
    getOrCreateUserList := fun _ => .ok "userList9"
    createOfflineUserDataJob := fun _ => .ok "customers/9/offlineUserDataJobs/9"
    managedSend := fun _ _ _ _ => { result := false, errors := ["batch 2 failed"] }
    runOfflineUserDataJob := fun _ _ => .ok () }

/-- Fixture: an environment whose job creation throws. -/
def envJobCreateFails : Env :=
  { loadContent := fun _ _ => .ok "line1"
    getOrCreateUserList := fun _ => .ok "userList5"
    createOfflineUserDataJob := fun _ => .error "job quota exceeded"
    managedSend := fun _ _ _ _ => { result := true, errors := [] }
    runOfflineUserDataJob := fun _ _ => .ok () }

/-- Fixture: a raw message string that is a JSON storage reference with
bucket `b1` and file `f1`. -/
def rawStorageRef : String := "\x7b\"bucket\":\"b1\",\"file\":\"f1\"\x7d"

/-- Fixture: a configuration whose job type does not require a user list. -/
def cfgStoreSales : GoogleAdsOfflineUserDataJobConfig :=
  { developerToken := "devtoken"
    offlineUserDataJobConfig :=
      { type := "STORE_SALES_UPLOAD_FIRST_PARTY", list_id := none }
    recordsPerRequest := none, qps := none, numberOfThreads := none }

/-- Fixture: a configuration whose job type requires a user list. -/
def cfgCustomerMatch : GoogleAdsOfflineUserDataJobConfig :=
  { developerToken := "devtoken"
    offlineUserDataJobConfig :=
      { type := "CUSTOMER_MATCH_USER_LIST", list_id := none }
    recordsPerRequest := none, qps := none, numberOfThreads := none }

end GoogleAdsOfflineUserDataJobUpload

namespace GoogleAdsConversionAdjustment

/-- The parts of `GoogleAdsConversionConfig` read by `sendDataInternal`:
the destructured customer identifiers and the (opaque) `adsConfig`. -/
structure GoogleAdsConversionConfig where
  customerId : String
  loginCustomerId : String
  adsConfig : String
deriving DecidableEq

/-- The only remote activity of the simple upload: the managed send applying
the configured upload function (identified by `uploadFn`) to the records. -/
inductive Ev where
  | managedSend (uploadFn records messageId : String)
deriving DecidableEq

/-- Collaborators of the simple upload: `getUploadConversionAdjustmentFn`
returns an (opaque, here named) configured upload function for the given
customer ids and ads config; `managedSend` is the shared library's managed
send applied to that function. -/
structure Env where
  getUploadConversionAdjustmentFn : String → String → String → String
  managedSend : String → String → String → BatchResult

/-- Source method `GoogleAdsConversionAdjustment.sendDataInternal`: configure the upload
function for the customer and return the managed send's result over the
supplied records; the managed send is the only remote activity. -/
def sendDataInternal (env : Env) (records messageId : String)
    (config : GoogleAdsConversionConfig) : BatchResult × List Ev :=
  let configuredUpload := env.getUploadConversionAdjustmentFn
    config.customerId config.loginCustomerId config.adsConfig
  (env.managedSend configuredUpload records messageId,
    [.managedSend configuredUpload records messageId])

end GoogleAdsConversionAdjustment

/-- Modelled from the spec: the Batch Partitioner of the shared library is
not under src/. It splits the raw record stream — here already divided into
its newline-delimited records — into consecutive batches of at most
`recordsPerRequest` records each, splitting only on record boundaries, the
last batch possibly shorter. -/
def partitionRecords (recordsPerRequest : Nat) : List String → List (List String)
  | [] => []
  | r :: rs =>
    (r :: rs.take (recordsPerRequest - 1)) ::
      partitionRecords recordsPerRequest (rs.drop (recordsPerRequest - 1))
termination_by l => l.length
decreasing_by simp; omega

namespace CloudFunctions

/-- The `error` object of a REST error response, reduced to the read field
`code`. -/
structure ErrorStatus where
  code : Int
deriving DecidableEq

/-- The response of the get-function REST call: a CloudFunction resource
carrying a `name`, or an error object; absent fields are `none`. -/
structure GetFunctionResponse where
  name : Option String
  error : Option ErrorStatus
deriving DecidableEq

/-- Source method `CloudFunctions.exist`: a truthy `response.name` yields `true`;
otherwise `response.error.code === 404` yields `false`; any other response
shape throws (`Except.error`) — reading `.code` of an absent `error` object
throws a `TypeError`, a present non-404 code throws the "Unknown status"
error. `getFunction` stands for the injected get-function REST call. -/
def exist (getFunction : String → GetFunctionResponse) (functionName : String) :
    Except String Bool :=
  let response := getFunction functionName
  if jsTruthy response.name then .ok true
  else
    match response.error with
    | none => .error "TypeError: cannot read code of undefined"
    | some err =>
      if err.code = 404 then .ok false
      else .error ("Unknown status of Cloud Functions " ++ functionName)

/-- A CloudFunction payload: the `name` field that `createOrUpdate` may set,
plus the rest of the resource kept opaque. -/
structure CloudFunction where
  name : Option String
  body : String
deriving DecidableEq

/-- An operation resource, reduced to the read field `name`. -/
structure Operation where
  name : String
deriving DecidableEq

/-- One REST mutation issued through `ApiBase.mutate`: the request path, the
payload sent, and the HTTP method (`none` is `mutate`'s default method). -/
inductive HttpEv where
  | mutation (path : String) (payload : CloudFunction) (method : Option String)
deriving DecidableEq

/-- The wrapper's state and transport: project and location ids, the
get-function call, and `ApiBase.mutate`. -/
structure Env where
  projectId : String
  locationId : String
  getFunction : String → GetFunctionResponse
  mutateCall : String → CloudFunction → Option String → Operation

/-- The `projects/{projectId}/locations/{locationId}/functions` path used by
the wrapper. -/
def functionsPath (env : Env) : String :=
  "projects/" ++ env.projectId ++ "/locations/" ++ env.locationId ++ "/functions"

/-- Source method `CloudFunctions.updateFunction`: a PATCH mutation to the function's
path. Returns the operation and the trace of issued mutations. -/
def updateFunction (env : Env) (functionsName : String) (payload : CloudFunction) :
    Operation × List HttpEv :=
  (env.mutateCall (functionsPath env ++ "/" ++ functionsName) payload (some "PATCH"),
    [.mutation (functionsPath env ++ "/" ++ functionsName) payload (some "PATCH")])

/-- Source method `CloudFunctions.createFunction`: a default-method mutation to the
functions collection path. -/
def createFunction (env : Env) (payload : CloudFunction) :
    Operation × List HttpEv :=
  (env.mutateCall (functionsPath env) payload none,
    [.mutation (functionsPath env) payload none])

/-- Source method `CloudFunctions.createOrUpdate`: when `exist` reports the function
exists, update it with the payload as given; otherwise set `payload.name` to
the fully-qualified path and create it; return the operation's name. When
`exist` throws, the exception propagates. -/
def createOrUpdate (env : Env) (functionsName : String) (payload : CloudFunction) :
    Except String (String × List HttpEv) :=
  match exist env.getFunction functionsName with
  | .error e => .error e
  | .ok true =>
    let step := updateFunction env functionsName payload
    .ok (step.1.name, step.2)
  | .ok false =>
    let payload2 :=
      { payload with name := some (functionsPath env ++ "/" ++ functionsName) }
    let step := createFunction env payload2
    .ok (step.1.name, step.2)

/-- Fixture: a wrapper environment in which exactly the function named
`fn-existing` exists. -/
def envCF : Env :=
  { projectId := "proj1", locationId := "loc1"
    getFunction := fun n =>
      if n = "fn-existing" then ⟨some "fn-existing", none⟩ else ⟨none, some ⟨404⟩⟩
    mutateCall := fun path _ _ => ⟨"operations/op-for-" ++ path⟩ }

end CloudFunctions

open GoogleAdsOfflineUserDataJobUpload

/-- C5: for every configuration, `getSpeedOptions` returns
`numberOfThreads = 1` regardless of any value supplied in the configuration,
and `recordsPerRequest` and `qps` fall back to their defaults `100000` and
`1` whenever the supplied values are not proper values. -/
theorem getSpeedOptions_spec (config : GoogleAdsOfflineUserDataJobConfig) :
    (GoogleAdsOfflineUserDataJobUpload.getSpeedOptions config).numberOfThreads = 1 ∧
    (isProperValue config.recordsPerRequest true = false →
      (GoogleAdsOfflineUserDataJobUpload.getSpeedOptions config).recordsPerRequest = 100000) ∧
    (isProperValue config.qps false = false →
      (GoogleAdsOfflineUserDataJobUpload.getSpeedOptions config).qps = 1) := by
  refine ⟨rfl, ?_, ?_⟩
  · intro h
    cases hv : config.recordsPerRequest with
    | none =>
      simp [GoogleAdsOfflineUserDataJobUpload.getSpeedOptions, getProperValue, hv,
        RECORDS_PER_REQUEST]
    | some v =>
      simp only [isProperValue, hv, decide_eq_false_iff_not, true_and] at h
      simp [GoogleAdsOfflineUserDataJobUpload.getSpeedOptions, getProperValue, hv,
        RECORDS_PER_REQUEST, h]
  · intro h
    cases hv : config.qps with
    | none =>
      simp [GoogleAdsOfflineUserDataJobUpload.getSpeedOptions, getProperValue, hv,
        QUERIES_PER_SECOND]
    | some v =>
      simp only [isProperValue, hv, decide_eq_false_iff_not] at h
      have hneg : ¬ 0 < v := fun hlt => h (Or.inl hlt)
      simp [GoogleAdsOfflineUserDataJobUpload.getSpeedOptions, getProperValue, hv,
        QUERIES_PER_SECOND, hneg]

/-- Witness for C5 at a concrete configuration carrying improper values. -/
theorem getSpeedOptions_spec_witness :
    (GoogleAdsOfflineUserDataJobUpload.getSpeedOptions
      ⟨"token", ⟨"CUSTOMER_MATCH_USER_LIST", none⟩, some (-5), some 0, some 8⟩).numberOfThreads = 1 ∧
    (GoogleAdsOfflineUserDataJobUpload.getSpeedOptions
      ⟨"token", ⟨"CUSTOMER_MATCH_USER_LIST", none⟩, some (-5), some 0, some 8⟩).recordsPerRequest = 100000 ∧
    (GoogleAdsOfflineUserDataJobUpload.getSpeedOptions
      ⟨"token", ⟨"CUSTOMER_MATCH_USER_LIST", none⟩, some (-5), some 0, some 8⟩).qps = 1 :=
  ⟨(getSpeedOptions_spec _).1,
   (getSpeedOptions_spec _).2.1 (by decide),
   (getSpeedOptions_spec _).2.2 (by decide)⟩

/-- C1 counterexample: at a message that parses as a storage reference with
an object key, in an environment whose fetch (`loadContent`) throws, the
invocation does not return a failed BatchResult: it returns the successful
managed-send result, and the managed send was invoked with the original
message string as the record data — the fetch failure was silently recovered
by the inline-data fallback. -/
theorem sendDataInternal_fetch_failure_not_failed :
    sendDataInternal envFetchFails
        (.parsed rawStorageRef (some "b1") (some "f1")) "mid1" cfgStoreSales =
      ({ result := true, errors := [] },
        [.fetch (some "b1") "f1",
         .createJob cfgStoreSales.offlineUserDataJobConfig,
         .send cfgStoreSales.offlineUserDataJobConfig
           "customers/1/offlineUserDataJobs/2" rawStorageRef "mid1",
         .runJob cfgStoreSales.offlineUserDataJobConfig
           "customers/1/offlineUserDataJobs/2"]) := rfl

/-- C1 (amended): when the fetch (`loadContent`) throws, the exception is
caught by the first `catch` and the original raw message string is used as
the record data: the invocation proceeds to the job phase on the raw message
instead of returning a failed BatchResult. -/
theorem sendDataInternal_fetch_failure_inline_fallback
    (env : GoogleAdsOfflineUserDataJobUpload.Env) (raw : String)
    (bucket : Option String) (f : String) (messageId : String)
    (config : GoogleAdsOfflineUserDataJobConfig) (e : String)
    (hf : f ≠ "") (hload : env.loadContent bucket f = .error e) :
    sendDataInternal env (.parsed raw bucket (some f)) messageId config =
      ((jobPhase env raw messageId config.offlineUserDataJobConfig).1,
        .fetch bucket f ::
          (jobPhase env raw messageId config.offlineUserDataJobConfig).2) := by
  have hres : resolveSource env (.parsed raw bucket (some f)) =
      (.records raw, [.fetch bucket f]) := by
    simp [resolveSource, jsTruthy, hf, hload]
  simp [sendDataInternal, hres]

/-- Witness for the amended C1 at a concrete environment and message. -/
theorem sendDataInternal_fetch_failure_inline_fallback_witness :
    sendDataInternal envFetchFails
        (.parsed "inline-data" (some "b1") (some "f1")) "m1" cfgStoreSales =
      ((jobPhase envFetchFails "inline-data" "m1"
          cfgStoreSales.offlineUserDataJobConfig).1,
        .fetch (some "b1") "f1" ::
          (jobPhase envFetchFails "inline-data" "m1"
            cfgStoreSales.offlineUserDataJobConfig).2) :=
  sendDataInternal_fetch_failure_inline_fallback envFetchFails "inline-data"
    (some "b1") "f1" "m1" cfgStoreSales "storage failure" (by decide) rfl

/-- C2: a message that parses as an object without a (truthy) `file` field
causes an immediate failed return: no fetch, no list or job creation, no
batch send (the trace is empty), and a single descriptive error message. -/
theorem sendDataInternal_missing_file_early_return
    (env : GoogleAdsOfflineUserDataJobUpload.Env) (raw : String)
    (bucket : Option String) (messageId : String)
    (config : GoogleAdsOfflineUserDataJobConfig) :
    sendDataInternal env (.parsed raw bucket none) messageId config =
      ({ result := false,
         errors := ["Could find GCS infomation in message: " ++ raw] }, []) := by
  simp [sendDataInternal, resolveSource, jsTruthy]

/-- C3: in the job phase, with a job type that starts with CUSTOMER_MATCH:
(i) when list and job creation succeed, the trace is exactly create-list,
then create-job with the list id injected into the config, then the managed
send, then run-job — each exactly once, in that order, and run-job occurs
after the send whatever the managed send's BatchResult was (the trace does
not depend on it); (ii) when list creation throws, the trace is just the
create-list attempt — no run-job is ever issued; (iii) when job creation
throws, the trace stops at the create-job attempt — no run-job is ever
issued. -/
theorem jobPhase_customer_match_order
    (env : GoogleAdsOfflineUserDataJobUpload.Env) (records messageId : String)
    (config : OfflineUserDataJobConfig)
    (hty : strStartsWith config.type "CUSTOMER_MATCH" = true) :
    (∀ listId job,
      env.getOrCreateUserList config = .ok listId →
      env.createOfflineUserDataJob { config with list_id := some listId } = .ok job →
      (jobPhase env records messageId config).2 =
        [.createList config,
         .createJob { config with list_id := some listId },
         .send { config with list_id := some listId } job records messageId,
         .runJob { config with list_id := some listId } job]) ∧
    (∀ e, env.getOrCreateUserList config = .error e →
      jobPhase env records messageId config =
        (getResultFromError e, [.createList config])) ∧
    (∀ listId e,
      env.getOrCreateUserList config = .ok listId →
      env.createOfflineUserDataJob { config with list_id := some listId } = .error e →
      jobPhase env records messageId config =
        (getResultFromError e,
          [.createList config, .createJob { config with list_id := some listId }])) := by
  refine ⟨?_, ?_, ?_⟩
  · intro listId job h1 h2
    simp only [jobPhase, hty, if_true, h1, jobPhaseAfterList, h2]
    cases env.runOfflineUserDataJob { config with list_id := some listId } job <;> simp
  · intro e h1
    simp [jobPhase, hty, h1]
  · intro listId e h1 h2
    simp [jobPhase, hty, h1, jobPhaseAfterList, h2]

/-- Witness for C3 at a concrete environment in which one batch send fails:
the full trace, run-job included, is still produced. -/
theorem jobPhase_customer_match_order_witness :
    (jobPhase envJobOrder "r1\nr2" "m9" ⟨"CUSTOMER_MATCH_USER_LIST", none⟩).2 =
      [.createList ⟨"CUSTOMER_MATCH_USER_LIST", none⟩,
       .createJob ⟨"CUSTOMER_MATCH_USER_LIST", some "userList9"⟩,
       .send ⟨"CUSTOMER_MATCH_USER_LIST", some "userList9"⟩
         "customers/9/offlineUserDataJobs/9" "r1\nr2" "m9",
       .runJob ⟨"CUSTOMER_MATCH_USER_LIST", some "userList9"⟩
         "customers/9/offlineUserDataJobs/9"] :=
  (jobPhase_customer_match_order envJobOrder "r1\nr2" "m9"
      ⟨"CUSTOMER_MATCH_USER_LIST", none⟩ (by decide)).1
    "userList9" "customers/9/offlineUserDataJobs/9" rfl rfl

/-- C4 counterexample: the source-resolution step (the fetch) throws, yet
the invocation's result is a successful BatchResult, not a failed one: this
exception is caught but not converted into a failed BatchResult. -/
theorem sendDataInternal_source_exception_not_converted :
    envSourceThrows.loadContent (some "b4") "f4" = .error "storage outage" ∧
    (sendDataInternal envSourceThrows
        (.parsed "raw-ref-4" (some "b4") (some "f4")) "mid4" cfgStoreSales).1 =
      { result := true, errors := [] } := ⟨rfl, rfl⟩

/-- C4 (amended): exceptions thrown by user-list creation, job creation or
the run-job command are caught inside `sendDataInternal` and converted by
`getResultFromError` into a failed BatchResult whose errors array contains a
single descriptive message; an exception thrown by the source fetch is also
caught, but recovered through the inline-data fallback rather than converted
(see the counterexample); no exception reaches the caller — the embedding of
`sendDataInternal` is a total function. -/
theorem jobPhase_exception_converted
    (env : GoogleAdsOfflineUserDataJobUpload.Env) (records messageId : String)
    (config : OfflineUserDataJobConfig) :
    (∀ e, strStartsWith config.type "CUSTOMER_MATCH" = true →
      env.getOrCreateUserList config = .error e →
      (jobPhase env records messageId config).1 =
        { result := false, errors := [e] }) ∧
    (∀ e, env.createOfflineUserDataJob config = .error e →
      (jobPhaseAfterList env records messageId config).1 =
        { result := false, errors := [e] }) ∧
    (∀ job e, env.createOfflineUserDataJob config = .ok job →
      env.runOfflineUserDataJob config job = .error e →
      (jobPhaseAfterList env records messageId config).1 =
        { result := false, errors := [e] }) := by
  refine ⟨?_, ?_, ?_⟩
  · intro e hty h1
    simp [jobPhase, hty, h1, getResultFromError]
  · intro e h1
    simp [jobPhaseAfterList, h1, getResultFromError]
  · intro job e h1 h2
    simp [jobPhaseAfterList, h1, h2, getResultFromError]

/-- Witness for the amended C4: a thrown job creation is returned as a
failed BatchResult with that single message. -/
theorem jobPhase_exception_converted_witness :
    (jobPhaseAfterList envJobCreateFails "line1" "m5"
        ⟨"STORE_SALES_UPLOAD_FIRST_PARTY", none⟩).1 =
      { result := false, errors := ["job quota exceeded"] } :=
  (jobPhase_exception_converted envJobCreateFails "line1" "m5"
      ⟨"STORE_SALES_UPLOAD_FIRST_PARTY", none⟩).2.1 "job quota exceeded" rfl

/-- C6: at a message carrying a bucket but no object key, the single error
message the code produces is literally "Could find GCS infomation in
message: ..." — the "not" is missing (and "information" is misspelt), so it
is not the "could not find" message the specification describes. -/
theorem sendDataInternal_missing_file_message_text :
    (sendDataInternal envJobOrder
        (.parsed "storage-ref-no-file" (some "bucket6") none) "mid6" cfgStoreSales).1 =
      { result := false,
        errors := ["Could find GCS infomation in message: storage-ref-no-file"] } := rfl

/-- C7: the conversion-adjustments simple upload returns exactly the managed
send's BatchResult, applied to the configured upload function and the
supplied records, and its trace is that single managed send and nothing
else — no remote call happens before or after the managed send itself. -/
theorem conversionAdjustment_sendDataInternal_spec
    (env : GoogleAdsConversionAdjustment.Env) (records messageId : String)
    (config : GoogleAdsConversionAdjustment.GoogleAdsConversionConfig) :
    GoogleAdsConversionAdjustment.sendDataInternal env records messageId config =
      (env.managedSend
          (env.getUploadConversionAdjustmentFn config.customerId
            config.loginCustomerId config.adsConfig) records messageId,
        [.managedSend
          (env.getUploadConversionAdjustmentFn config.customerId
            config.loginCustomerId config.adsConfig) records messageId]) := rfl

/-- Unfolding lemma: `partitionRecords` on the empty stream. -/
theorem partitionRecords_nil (R : Nat) : partitionRecords R [] = [] := by
  simp [partitionRecords]

/-- Unfolding lemma: `partitionRecords` on a nonempty stream takes one full
batch and recurses on the rest. -/
theorem partitionRecords_cons (R : Nat) (r : String) (rs : List String) :
    partitionRecords R (r :: rs) =
      (r :: rs.take (R - 1)) :: partitionRecords R (rs.drop (R - 1)) := by
  simp [partitionRecords]

/-- Fuel-bounded form: concatenating the batches restores the stream. -/
theorem partitionRecords_join_le (R n : Nat) :
    ∀ rs : List String, rs.length ≤ n → (partitionRecords R rs).flatten = rs := by
  induction n with
  | zero =>
    intro rs h
    have hrs : rs = [] := List.length_eq_zero.mp (Nat.le_zero.mp h)
    subst hrs
    simp [partitionRecords_nil]
  | succ n ih =>
    intro rs h
    match rs with
    | [] => simp [partitionRecords_nil]
    | r :: rs' =>
      rw [partitionRecords_cons]
      simp only [List.flatten_cons]
      rw [ih (rs'.drop (R - 1)) (by simp only [List.length_drop, List.length_cons] at h ⊢; omega)]
      simp [List.take_append_drop]

/-- Fuel-bounded form: the number of batches is the ceiling of N / R. -/
theorem partitionRecords_length_le (R n : Nat) (hR : 0 < R) :
    ∀ rs : List String, rs.length ≤ n →
      (partitionRecords R rs).length = (rs.length + R - 1) / R := by
  induction n with
  | zero =>
    intro rs h
    have hrs : rs = [] := List.length_eq_zero.mp (Nat.le_zero.mp h)
    subst hrs
    rw [partitionRecords_nil]
    simp only [List.length_nil, Nat.zero_add]
    rw [Nat.div_eq_of_lt (by omega)]
  | succ n ih =>
    intro rs h
    match rs with
    | [] =>
      rw [partitionRecords_nil]
      simp only [List.length_nil, Nat.zero_add]
      rw [Nat.div_eq_of_lt (by omega)]
    | r :: rs' =>
      rw [partitionRecords_cons]
      simp only [List.length_cons]
      rw [ih (rs'.drop (R - 1)) (by simp only [List.length_drop, List.length_cons] at h ⊢; omega)]
      simp only [List.length_drop]
      rcases le_or_lt R (rs'.length + 1) with hc | hc
      · have e1 : rs'.length - (R - 1) + R - 1 = rs'.length := by omega
        have e2 : rs'.length + 1 + R - 1 = rs'.length + R := by omega
        rw [e1, e2, Nat.add_div_right _ hR]
      · have e1 : rs'.length - (R - 1) + R - 1 = R - 1 := by omega
        have e2 : rs'.length + 1 + R - 1 = rs'.length + R := by omega
        rw [e1, e2, Nat.add_div_right _ hR,
          Nat.div_eq_of_lt (by omega : R - 1 < R),
          Nat.div_eq_of_lt (by omega : rs'.length < R)]

/-- Fuel-bounded form: every batch holds at most R records. -/
theorem partitionRecords_sizes_le (R n : Nat) (hR : 0 < R) :
    ∀ rs : List String, rs.length ≤ n →
      ∀ b ∈ partitionRecords R rs, b.length ≤ R := by
  induction n with
  | zero =>
    intro rs h b hb
    have hrs : rs = [] := List.length_eq_zero.mp (Nat.le_zero.mp h)
    subst hrs
    simp [partitionRecords_nil] at hb
  | succ n ih =>
    intro rs h b hb
    match rs with
    | [] => simp [partitionRecords_nil] at hb
    | r :: rs' =>
      rw [partitionRecords_cons] at hb
      rcases List.mem_cons.mp hb with hb1 | hb'
      · subst hb1
        simp only [List.length_cons, List.length_take]
        omega
      · exact ih _ (by simp only [List.length_drop, List.length_cons] at h ⊢; omega) b hb'

/-- C8: for every raw record stream of N (already newline-separated) records
and every recordsPerRequest R > 0, the Batch Partitioner produces exactly
ceil(N/R) = (N + R - 1) / R batches, each holding at most R records, and the
in-order concatenation of all batches equals the original stream — records
are atoms of the embedding, so no record is ever split across batches. -/
theorem partitionRecords_spec (R : Nat) (hR : 0 < R) (rs : List String) :
    (partitionRecords R rs).length = (rs.length + R - 1) / R ∧
    (∀ b ∈ partitionRecords R rs, b.length ≤ R) ∧
    (partitionRecords R rs).flatten = rs :=
  ⟨partitionRecords_length_le R rs.length hR rs le_rfl,
   partitionRecords_sizes_le R rs.length hR rs le_rfl,
   partitionRecords_join_le R rs.length rs le_rfl⟩

/-- Witness for C8: five records in batches of two give three batches. -/
theorem partitionRecords_spec_witness :
    (partitionRecords 2 ["r1", "r2", "r3", "r4", "r5"]).length = (5 + 2 - 1) / 2 ∧
    (∀ b ∈ partitionRecords 2 ["r1", "r2", "r3", "r4", "r5"], b.length ≤ 2) ∧
    (partitionRecords 2 ["r1", "r2", "r3", "r4", "r5"]).flatten =
      ["r1", "r2", "r3", "r4", "r5"] :=
  partitionRecords_spec 2 (by decide) ["r1", "r2", "r3", "r4", "r5"]

/-- C9: `exist` returns `.ok true` when the get-function response carries a
(truthy) name; returns `.ok false` when it instead carries an error with
code 404; and throws (`.error`) for every other response shape — a present
non-404 error code throws the "Unknown status" error, and an absent error
object throws the TypeError raised by reading its `code` field. -/
theorem cloudFunctions_exist_spec
    (getFunction : String → CloudFunctions.GetFunctionResponse)
    (functionName : String) :
    (jsTruthy (getFunction functionName).name = true →
      CloudFunctions.exist getFunction functionName = .ok true) ∧
    (jsTruthy (getFunction functionName).name = false →
      ∀ err, (getFunction functionName).error = some err → err.code = 404 →
        CloudFunctions.exist getFunction functionName = .ok false) ∧
    (jsTruthy (getFunction functionName).name = false →
      ∀ err, (getFunction functionName).error = some err → err.code ≠ 404 →
        CloudFunctions.exist getFunction functionName =
          .error ("Unknown status of Cloud Functions " ++ functionName)) ∧
    (jsTruthy (getFunction functionName).name = false →
      (getFunction functionName).error = none →
      ∃ msg, CloudFunctions.exist getFunction functionName = .error msg) := by
  refine ⟨?_, ?_, ?_, ?_⟩
  · intro h
    simp [CloudFunctions.exist, h]
  · intro h err herr hc
    simp [CloudFunctions.exist, h, herr, hc]
  · intro h err herr hc
    simp [CloudFunctions.exist, h, herr, hc]
  · intro h herr
    exact ⟨"TypeError: cannot read code of undefined",
      by simp [CloudFunctions.exist, h, herr]⟩

/-- Witness for C9: in the fixture environment an unknown function name gets
a 404 response, and `exist` returns `false`. -/
theorem cloudFunctions_exist_spec_witness :
    CloudFunctions.exist CloudFunctions.envCF.getFunction "fn-other" = .ok false :=
  (cloudFunctions_exist_spec CloudFunctions.envCF.getFunction "fn-other").2.1
    (by decide) ⟨404⟩ (by decide) rfl

/-- C10: when `exist` reports that the function exists, `createOrUpdate`
issues a single PATCH mutation to the existing function's path with the
payload exactly as supplied (its `name` field unmodified) and returns the
operation's name; when it reports that it does not exist, it first sets
`payload.name` to the fully-qualified projects/locations/functions path and
issues a single default-method create mutation to the collection path, again
returning the operation's name. -/
theorem cloudFunctions_createOrUpdate_spec
    (env : CloudFunctions.Env) (functionsName : String)
    (payload : CloudFunctions.CloudFunction) :
    (CloudFunctions.exist env.getFunction functionsName = .ok true →
      CloudFunctions.createOrUpdate env functionsName payload =
        .ok ((env.mutateCall
                (CloudFunctions.functionsPath env ++ "/" ++ functionsName)
                payload (some "PATCH")).name,
          [.mutation (CloudFunctions.functionsPath env ++ "/" ++ functionsName)
            payload (some "PATCH")])) ∧
    (CloudFunctions.exist env.getFunction functionsName = .ok false →
      CloudFunctions.createOrUpdate env functionsName payload =
        .ok ((env.mutateCall (CloudFunctions.functionsPath env)
                { payload with
                    name := some (CloudFunctions.functionsPath env ++ "/" ++ functionsName) }
                none).name,
          [.mutation (CloudFunctions.functionsPath env)
            { payload with
                name := some (CloudFunctions.functionsPath env ++ "/" ++ functionsName) }
            none])) := by
  constructor
  · intro h
    simp [CloudFunctions.createOrUpdate, h, CloudFunctions.updateFunction]
  · intro h
    simp [CloudFunctions.createOrUpdate, h, CloudFunctions.createFunction]

/-- Witness for C10: updating the existing function of the fixture. -/
theorem cloudFunctions_createOrUpdate_spec_witness :
    CloudFunctions.createOrUpdate CloudFunctions.envCF "fn-existing" ⟨none, "src-zip"⟩ =
      .ok ((CloudFunctions.envCF.mutateCall
              (CloudFunctions.functionsPath CloudFunctions.envCF ++ "/" ++ "fn-existing")
              ⟨none, "src-zip"⟩ (some "PATCH")).name,
        [.mutation
          (CloudFunctions.functionsPath CloudFunctions.envCF ++ "/" ++ "fn-existing")
          ⟨none, "src-zip"⟩ (some "PATCH")]) :=
  (cloudFunctions_createOrUpdate_spec CloudFunctions.envCF "fn-existing"
    ⟨none, "src-zip"⟩).1 rfl
